import Mathlib

/-
Verification of the invoice-analysis engine (BillingAnalysis):
a shallow embedding of `Invoice_Analysis.get_overdue_bucket`,
`calculate_client_metrics`, `calculate_client_score` and the
batch entry point `get_grouped_customer_invoice_data`, with Python
floats modelled as exact rationals, dates as integers (ordinal days)
and `round(x, n)` as decimal rounding half to even.
-/

namespace Billing

/-- Round half to even (banker's rounding) of a rational to an integer,
modelling Python's built-in `round` on an exact value. -/
def rhe (q : ℚ) : ℤ :=
  if q - ⌊q⌋ < 1/2 then ⌊q⌋
  else if 1/2 < q - ⌊q⌋ then ⌊q⌋ + 1
  else if ⌊q⌋ % 2 = 0 then ⌊q⌋ else ⌊q⌋ + 1

/-- Python `round(x, n)`: decimal rounding half to even at `n` places,
over exact rationals. -/
def roundTo (n : ℕ) (q : ℚ) : ℚ := (rhe (q * 10 ^ n) : ℚ) / 10 ^ n

/-- An invoice record as the dictionaries built in
`get_grouped_customer_invoice_data` (lines 409-425): amounts are rationals
(`float(... or 0)` turns an absent amount into `0.0`), dates are nullable
ordinal days, and `db_invoice_id` is nullable (`_get` returns `None` when
the key is missing). -/
structure Invoice where
  db_invoice_id : Option ℤ
  invoice_number : Option String
  project_name : Option String
  milestone_name : Option String
  currency_type : Option String
  invoice_date : Option ℤ
  due_date : Option ℤ
  invoice_amount : ℚ
  amount_overdue : ℚ
  is_disputed : Bool
  upcoming_payment_date : Option ℤ
  last_paid_amount : ℚ
  last_paid_date : Option ℤ

/-- A customer record (`CustomerData`): only the two fields the analysed
code reads. -/
structure Customer where
  customer_id : ℕ
  customer_name : String

/-- One aging bucket: `{"count": ..., "amount": ...}` (lines 228-234). -/
structure Bucket where
  count : ℕ
  amount : ℚ

/-- The `overdue_buckets` dictionary with its five fixed keys. -/
structure OverdueBuckets where
  upcoming : Bucket
  days0to30 : Bucket
  days31to60 : Bucket
  days61to90 : Bucket
  days90plus : Bucket

/-- The five bucket labels, as an enumeration of the exact key strings. -/
inductive BucketName
  | Upcoming
  | Days0to30
  | Days31to60
  | Days61to90
  | Days90plus

/-- The key string each `BucketName` stands for. -/
def bucketLabel : BucketName → String
  | .Upcoming => "Upcoming"
  | .Days0to30 => "0-30 days"
  | .Days31to60 => "31-60 days"
  | .Days61to90 => "61-90 days"
  | .Days90plus => "90+ days"

/-- `get_overdue_bucket` (lines 46-55): categorize overdue days into aging
buckets. -/
def get_overdue_bucket (days_overdue : ℤ) : BucketName :=
  if days_overdue ≤ 30 then .Days0to30
  else if 31 ≤ days_overdue ∧ days_overdue ≤ 60 then .Days31to60
  else if 61 ≤ days_overdue ∧ days_overdue ≤ 90 then .Days61to90
  else .Days90plus

/-- `overdue_buckets[bucket_name]["count"] += 1` and
`overdue_buckets[bucket_name]["amount"] += receivable` (lines 287-288),
as one update of the bucket named `name`. -/
def OverdueBuckets.add (b : OverdueBuckets) (name : BucketName) (amt : ℚ) : OverdueBuckets :=
  match name with
  | .Upcoming => { b with upcoming := { count := b.upcoming.count + 1, amount := b.upcoming.amount + amt } }
  | .Days0to30 => { b with days0to30 := { count := b.days0to30.count + 1, amount := b.days0to30.amount + amt } }
  | .Days31to60 => { b with days31to60 := { count := b.days31to60.count + 1, amount := b.days31to60.amount + amt } }
  | .Days61to90 => { b with days61to90 := { count := b.days61to90.count + 1, amount := b.days61to90.amount + amt } }
  | .Days90plus => { b with days90plus := { count := b.days90plus.count + 1, amount := b.days90plus.amount + amt } }

/-- The three values of the per-invoice `payment_status` string. -/
inductive PaymentStatus
  | Unpaid
  | PartiallyPaid
  | Paid

/-- `receivable = max(amount - received, 0.0)` (line 251). -/
def Invoice.receivable (inv : Invoice) : ℚ := max (inv.invoice_amount - inv.last_paid_amount) 0

/-- The `payment_status` classification (lines 253-259). -/
def Invoice.payment_status (inv : Invoice) : PaymentStatus :=
  if inv.last_paid_amount > 0 then
    if inv.receivable ≤ 0 then PaymentStatus.Paid else PaymentStatus.PartiallyPaid
  else PaymentStatus.Unpaid

/-- `days_past_due` (lines 261-264): `(today - due_date).days` when the due
date is known and in the past, else 0. -/
def Invoice.days_past_due (inv : Invoice) (today : ℤ) : ℤ :=
  match inv.due_date with
  | some d => if d < today then today - d else 0
  | none => 0

/-- The overdue test of line 278: `due_date and due_date < today and
receivable > 0`, as a boolean. -/
def Invoice.overdueB (inv : Invoice) (today : ℤ) : Bool :=
  match inv.due_date with
  | some d => decide (d < today) && decide (inv.receivable > 0)
  | none => false

/-- `days_overdue = (today - due_date).days` for an invoice whose due date
is known (0 when it is not; only read behind `overdueB`). -/
def Invoice.days_overdue (inv : Invoice) (today : ℤ) : ℤ :=
  today - inv.due_date.getD 0

/-- One entry of `all_invoices_details` (lines 311-324); the two `str(...)`
date conversions are kept as the dates themselves. -/
structure InvoiceDetail where
  invoice_number : Option String
  invoice_generated_date : Option ℤ
  invoice_due_date : Option ℤ
  days_past_due : ℤ
  client_name : String
  project_name : Option String
  milestone : String
  invoice_amount : ℚ
  payment_status : PaymentStatus
  payment_received_date : Option ℤ
  outstanding_amount : ℚ
  currency : Option String

/-- The mutable state of the `for inv in invoices` loop of
`calculate_client_metrics` (lines 207-239): the `metrics_data` counters
plus the auxiliary lists and running dates. -/
structure LoopState where
  total_invoice_amount : ℚ
  total_received : ℚ
  total_receivable : ℚ
  total_overdue_amount : ℚ
  overdue_invoice_count : ℕ
  paid_on_time_count : ℕ
  paid_late_count : ℕ
  upcoming_invoice_count : ℕ
  upcoming_invoice_amount : ℚ
  partial_paid_on_time_count : ℕ
  partial_paid_late_count : ℕ
  disputed_invoice_count : ℕ
  recurring_delay_count : ℕ
  overdue_days_list : List ℤ
  overdue_invoice_ids : List (Option ℤ)
  overdue_amount_list : List ℚ
  last_invoice_date : Option ℤ
  last_payment_date : Option ℤ
  overdue_buckets : OverdueBuckets
  late_payments_dates : List ℤ
  next_upcoming_payment_date : Option ℤ
  all_invoices_details : List InvoiceDetail

/-- The loop state before the first iteration. -/
def initState : LoopState where
  total_invoice_amount := 0
  total_received := 0
  total_receivable := 0
  total_overdue_amount := 0
  overdue_invoice_count := 0
  paid_on_time_count := 0
  paid_late_count := 0
  upcoming_invoice_count := 0
  upcoming_invoice_amount := 0
  partial_paid_on_time_count := 0
  partial_paid_late_count := 0
  disputed_invoice_count := 0
  recurring_delay_count := 0
  overdue_days_list := []
  overdue_invoice_ids := []
  overdue_amount_list := []
  last_invoice_date := none
  last_payment_date := none
  overdue_buckets :=
    { upcoming := { count := 0, amount := 0 }
      days0to30 := { count := 0, amount := 0 }
      days31to60 := { count := 0, amount := 0 }
      days61to90 := { count := 0, amount := 0 }
      days90plus := { count := 0, amount := 0 } }
  late_payments_dates := []
  next_upcoming_payment_date := none
  all_invoices_details := []

/-- Lines 268-270: unconditional accumulation of the three totals. -/
def updTotals (inv : Invoice) (s : LoopState) : LoopState :=
  { s with
    total_invoice_amount := s.total_invoice_amount + inv.invoice_amount
    total_received := s.total_received + inv.last_paid_amount
    total_receivable := s.total_receivable + inv.receivable }

/-- Lines 272-273: the disputed-invoice counter. -/
def updDisputed (inv : Invoice) (s : LoopState) : LoopState :=
  if inv.is_disputed then { s with disputed_invoice_count := s.disputed_invoice_count + 1 } else s

/-- Lines 275-276: keep the latest invoice date seen. -/
def updLastInvoiceDate (inv : Invoice) (s : LoopState) : LoopState :=
  match inv.invoice_date with
  | some d =>
    match s.last_invoice_date with
    | none => { s with last_invoice_date := some d }
    | some l => if d > l then { s with last_invoice_date := some d } else s
  | none => s

/-- Lines 278-288: the overdue branch — append to the three parallel lists,
accumulate the overdue total and count, and update the aging bucket. -/
def updOverdue (today : ℤ) (inv : Invoice) (s : LoopState) : LoopState :=
  match inv.due_date with
  | some d =>
    if d < today ∧ inv.receivable > 0 then
      let days_overdue := today - d
      { s with
        overdue_days_list := s.overdue_days_list ++ [days_overdue]
        overdue_invoice_ids := s.overdue_invoice_ids ++ [inv.db_invoice_id]
        total_overdue_amount := s.total_overdue_amount + inv.receivable
        overdue_amount_list := s.overdue_amount_list ++ [inv.receivable]
        overdue_invoice_count := s.overdue_invoice_count + 1
        overdue_buckets := s.overdue_buckets.add (get_overdue_bucket days_overdue) inv.receivable }
    else s
  | none => s

/-- Lines 290-303: payment-timing classification (full payments, then
partial payments), with the running last payment date and the list of late
payment dates. -/
def updTiming (inv : Invoice) (s : LoopState) : LoopState :=
  if inv.last_paid_amount ≥ inv.invoice_amount then
    match inv.due_date, inv.last_paid_date with
    | some d, some p =>
      let lp :=
        match s.last_payment_date with
        | none => some p
        | some l => if p > l then some p else some l
      if p ≤ d then { s with last_payment_date := lp, paid_on_time_count := s.paid_on_time_count + 1 }
      else { s with
        last_payment_date := lp
        paid_late_count := s.paid_late_count + 1
        late_payments_dates := s.late_payments_dates ++ [p] }
    | _, _ => s
  else if 0 < inv.last_paid_amount then
    match inv.due_date, inv.last_paid_date with
    | some d, some p =>
      if p ≤ d then { s with partial_paid_on_time_count := s.partial_paid_on_time_count + 1 }
      else { s with
        partial_paid_late_count := s.partial_paid_late_count + 1
        late_payments_dates := s.late_payments_dates ++ [p] }
    | _, _ => s
  else s

/-- Lines 305-309: the upcoming-invoice branch. -/
def updUpcoming (today : ℤ) (inv : Invoice) (s : LoopState) : LoopState :=
  match inv.upcoming_payment_date with
  | some u =>
    if u > today then
      let nd :=
        match s.next_upcoming_payment_date with
        | none => some u
        | some n => if u < n then some u else some n
      { s with
        upcoming_invoice_count := s.upcoming_invoice_count + 1
        upcoming_invoice_amount := s.upcoming_invoice_amount + inv.receivable
        next_upcoming_payment_date := nd }
    else s
  | none => s

/-- Lines 311-324: append this invoice's detail record. -/
def updDetails (customer : Customer) (today : ℤ) (inv : Invoice) (s : LoopState) : LoopState :=
  { s with
    all_invoices_details := s.all_invoices_details ++ [{
      invoice_number := inv.invoice_number
      invoice_generated_date := inv.invoice_date
      invoice_due_date := inv.due_date
      days_past_due := inv.days_past_due today
      client_name := customer.customer_name
      project_name := inv.project_name
      milestone := inv.milestone_name.getD ""
      invoice_amount := inv.invoice_amount
      payment_status := inv.payment_status
      payment_received_date := inv.last_paid_date
      outstanding_amount := inv.receivable
      currency := inv.currency_type }] }

/-- The body of the `for inv in invoices` loop (lines 241-324), as the
composition of its seven successive state updates. -/
def metricsStep (customer : Customer) (today : ℤ) (s : LoopState) (inv : Invoice) : LoopState :=
  updDetails customer today inv
    (updUpcoming today inv
      (updTiming inv
        (updOverdue today inv
          (updLastInvoiceDate inv
            (updDisputed inv
              (updTotals inv s))))))

/-- Stable ascending insertion into a list of rationals. -/
def insertAsc (x : ℚ) : List ℚ → List ℚ
  | [] => [x]
  | y :: ys => if y ≤ x then y :: insertAsc x ys else x :: y :: ys

/-- Ascending sort of a list of rationals (the order `np.percentile` and
`statistics.median` work over). -/
def sortAsc (l : List ℚ) : List ℚ := l.foldl (fun acc x => insertAsc x acc) []

/-- `np.percentile(a, p)` with the default linear interpolation between
closest ranks, on an exact rational list. -/
def percentile (l : List ℚ) (p : ℚ) : ℚ :=
  let s := sortAsc l
  let n := s.length
  let h : ℚ := ((n : ℚ) - 1) * p / 100
  let i : ℕ := (⌊h⌋).toNat
  let lo := s.getD i 0
  let hi := s.getD (i + 1) lo
  lo + (h - ⌊h⌋) * (hi - lo)

/-- `statistics.median` on an exact rational list (the source only calls it
on a non-empty list). -/
def medianQ (l : List ℚ) : ℚ :=
  let s := sortAsc l
  let n := s.length
  if n % 2 = 1 then s.getD (n / 2) 0
  else (s.getD (n / 2 - 1) 0 + s.getD (n / 2) 0) / 2

/-- The generator of line 328: the first invoice of the full list whose
`db_invoice_id` equals `inv_id` yields its `amount_overdue` (default 0.0);
no match yields 0.0. `None == None` is true in Python, so the option
equality matches missing ids too. -/
def lookupAmountOverdue (invoices : List Invoice) (inv_id : Option ℤ) : ℚ :=
  match invoices.find? (fun j => j.db_invoice_id == inv_id) with
  | some j => j.amount_overdue
  | none => 0

/-- The dictionary returned by `calculate_client_metrics` (lines 360-382).
`sentiment_score_from_comm` is not a key of that dictionary in the source:
the orchestrator sets it afterwards and `calculate_client_score` reads it
with default 0.5, so the field carries that default here and the
orchestrator overwrites it. `customer_id` keeps the numeric id that
`str(...)` renders. -/
structure Metrics where
  customer_id : ℕ
  customer_name : String
  total_invoices : ℕ
  total_invoice_amount : ℚ
  total_received : ℚ
  total_receivable : ℚ
  total_overdue_amount : ℚ
  overdue_invoice_count : ℕ
  paid_on_time_count : ℕ
  paid_late_count : ℕ
  upcoming_invoice_count : ℕ
  upcoming_invoice_amount : ℚ
  partial_paid_on_time_count : ℕ
  partial_paid_late_count : ℕ
  disputed_invoice_count : ℕ
  recurring_delay_count : ℕ
  invoices_details : List InvoiceDetail
  overdue_percentage : ℚ
  overdue_percentage_amount : ℚ
  overdue_percentage_count : ℚ
  max_overdue_days : ℤ
  overdue_amount_percentile_25 : ℚ
  overdue_amount_median : ℚ
  overdue_amount_percentile_75 : ℚ
  avg_overdue_days : ℚ
  overdue_buckets : OverdueBuckets
  total_past_invoices : ℤ
  on_time_payment_ratio : ℚ
  late_payment_ratio : ℚ
  recurring_delay_ratio : ℚ
  next_upcoming_payment_date : Option ℤ
  last_invoice_date : Option ℤ
  last_payment_date : Option ℤ
  sentiment_score_from_comm : ℚ

/-- `calculate_client_metrics` (lines 204-383): the single pass over the
invoice list followed by the weighted average, percentile, ratio and
percentage computations. `today` is the injected reference date (the
source defaults it to the current date when not supplied). -/
def calculate_client_metrics (customer : Customer) (invoices : List Invoice) (today : ℤ) : Metrics :=
  let s := invoices.foldl (metricsStep customer today) initState
  let invoice_count := invoices.length
  let weighted_overdue_days : ℚ :=
    (List.zip s.overdue_days_list s.overdue_invoice_ids).foldl
      (fun acc x => acc + (x.1 : ℚ) * lookupAmountOverdue invoices x.2) 0
  let total_weight : ℚ := s.overdue_amount_list.foldl (fun a b => a + b) 0
  let avg_overdue_days : ℚ := if total_weight = 0 then 0 else weighted_overdue_days / total_weight
  let overdue_percentage_count : ℚ :=
    if invoice_count = 0 then 0 else ((s.overdue_invoice_count : ℚ) / (invoice_count : ℚ)) * 100
  let overdue_percentage := roundTo 2 (7/10 * overdue_percentage_count + 3/10 * overdue_percentage_count)
  let percentile_25 : ℚ := if s.overdue_amount_list = [] then 0 else percentile s.overdue_amount_list 25
  let median_amount : ℚ := if s.overdue_amount_list = [] then 0 else medianQ s.overdue_amount_list
  let percentile_75 : ℚ := if s.overdue_amount_list = [] then 0 else percentile s.overdue_amount_list 75
  let total_past_invoices : ℤ := (invoice_count : ℤ) - (s.upcoming_invoice_count : ℤ)
  let on_time_payment_ratio : ℚ :=
    if total_past_invoices > 0
    then ((s.paid_on_time_count + s.partial_paid_on_time_count : ℕ) : ℚ) / (total_past_invoices : ℚ)
    else 0
  let late_payment_ratio : ℚ :=
    if total_past_invoices > 0
    then ((s.paid_late_count + s.partial_paid_late_count : ℕ) : ℚ) / (total_past_invoices : ℚ)
    else 0
  let total_late_payments := s.paid_late_count + s.partial_paid_late_count
  let recurring_delay_ratio : ℚ :=
    if total_late_payments ≥ 3 ∧ total_past_invoices ≥ 5 then 1 else 0
  let overdue_percentage_amount : ℚ :=
    if s.total_invoice_amount > 0 then s.total_overdue_amount / s.total_invoice_amount * 100 else 0
  { customer_id := customer.customer_id
    customer_name := customer.customer_name
    total_invoices := invoice_count
    total_invoice_amount := s.total_invoice_amount
    total_received := s.total_received
    total_receivable := s.total_receivable
    total_overdue_amount := s.total_overdue_amount
    overdue_invoice_count := s.overdue_invoice_count
    paid_on_time_count := s.paid_on_time_count
    paid_late_count := s.paid_late_count
    upcoming_invoice_count := s.upcoming_invoice_count
    upcoming_invoice_amount := s.upcoming_invoice_amount
    partial_paid_on_time_count := s.partial_paid_on_time_count
    partial_paid_late_count := s.partial_paid_late_count
    disputed_invoice_count := s.disputed_invoice_count
    recurring_delay_count := s.recurring_delay_count
    invoices_details := s.all_invoices_details
    overdue_percentage := overdue_percentage
    overdue_percentage_amount := roundTo 2 overdue_percentage_amount
    overdue_percentage_count := roundTo 2 overdue_percentage_count
    max_overdue_days := match s.overdue_days_list.max? with | some m => m | none => 0
    overdue_amount_percentile_25 := roundTo 2 percentile_25
    overdue_amount_median := roundTo 2 median_amount
    overdue_amount_percentile_75 := roundTo 2 percentile_75
    avg_overdue_days := roundTo 2 avg_overdue_days
    overdue_buckets := s.overdue_buckets
    total_past_invoices := total_past_invoices
    on_time_payment_ratio := roundTo 4 on_time_payment_ratio
    late_payment_ratio := roundTo 4 late_payment_ratio
    recurring_delay_ratio := roundTo 4 recurring_delay_ratio
    next_upcoming_payment_date := s.next_upcoming_payment_date
    last_invoice_date := s.last_invoice_date
    last_payment_date := s.last_payment_date
    sentiment_score_from_comm := 1/2 }

/-- The distinct `key_factors` strings `calculate_client_score` can emit
(lines 167-183), with the values interpolated into each format string as
constructor arguments. -/
inductive KeyFactor
  | HighOverdueRatio (ratio : ℚ)
  | LowOnTimeRatio (ratio : ℚ)
  | WorseningTrend
  | ImprovingTrend
  | SevereOverdue
  | HighDisputes (count : ℕ)
  | RecurringDelays
  | ExcellentBehavior
  | LimitedHistory
deriving DecidableEq

/-- The distinct recommendation strings (lines 81, 185-193). -/
inductive Recommendation
  | StricterTermsAndPenalties
  | RequireUpfrontDeposits
  | EarlyPaymentIncentives
  | MonitorUpcomingInvoices
  | ExtendedCreditTerms
  | MaintainCurrentTerms
  | StructuredPaymentPlan
  | MonitorInitialPayments
  | RequestUpfrontDeposit

/-- The two `analysis_summary` format strings, with their interpolated
values as constructor arguments (lines 82 and 201). -/
inductive Summary
  | LimitedData
  | ScoreDriven (score : ℚ) (risk_level : String) (factors : List KeyFactor)

/-- The dictionary returned by `calculate_client_score` (lines 76-83 and
195-202). -/
structure ScoreResult where
  client_score : ℚ
  sentiment_score : ℚ
  risk_level : String
  key_factors : List KeyFactor
  recommendations : List Recommendation
  analysis_summary : Summary

/-- Stable ascending insertion by the first component, for
`overdue_days_list.sort(key=lambda x: x[0])` (line 122): a later element is
placed after the earlier ones with an equal key, as Python's stable sort
does. -/
def insertPair (x : ℤ × ℤ) : List (ℤ × ℤ) → List (ℤ × ℤ)
  | [] => [x]
  | y :: ys => if y.1 ≤ x.1 then y :: insertPair x ys else x :: y :: ys

/-- Stable ascending sort of `(invoice_date, days_overdue)` pairs by
invoice date. -/
def sortByDate (l : List (ℤ × ℤ)) : List (ℤ × ℤ) := l.foldl (fun acc x => insertPair x acc) []

/-- Lines 111-118: the `(invoice_date, days_overdue)` pairs collected for
the trend analysis — invoices whose due date and invoice date both parse,
with `due_date < today` and `float(inv.get("amount_overdue", 0)) > 0`,
appended in list order. -/
def overduePairs (invoices : List Invoice) (today : ℤ) : List (ℤ × ℤ) :=
  invoices.foldl
    (fun acc inv =>
      match inv.due_date, inv.invoice_date with
      | some d, some i =>
        if d < today ∧ inv.amount_overdue > 0 then acc ++ [(i, today - d)] else acc
      | _, _ => acc)
    []

/-- Lines 120-132: the payment-trend adjustment. With at least two pairs,
sort by invoice date, split at the floor midpoint into the older and the
recent half (the recent half keeps the midpoint element) and compare the
mean overdue days of the halves. -/
def trend_adjustment (invoices : List Invoice) (today : ℤ) : ℚ :=
  let pairs := overduePairs invoices today
  if pairs.length ≥ 2 then
    let sorted := sortByDate pairs
    let midpoint := sorted.length / 2
    let recent_days := (sorted.drop midpoint).map (fun p => p.2)
    let older_days := (sorted.take midpoint).map (fun p => p.2)
    let avg_recent : ℚ :=
      if recent_days ≠ [] then ((recent_days.foldl (fun a b => a + b) 0 : ℤ) : ℚ) / (recent_days.length : ℚ) else 0
    let avg_older : ℚ :=
      if older_days ≠ [] then ((older_days.foldl (fun a b => a + b) 0 : ℤ) : ℚ) / (older_days.length : ℚ) else 0
    if avg_recent > avg_older * (11/10) ∧ avg_older > 0 then -(1/10)
    else if avg_recent < avg_older * (9/10) then 1/10
    else 0
  else 0

/-- The `total_invoice_amount` local of line 62: `metrics.get(...) or 1.0`
turns a zero (or missing) amount into 1.0. -/
def tiaDefault (m : Metrics) : ℚ :=
  if m.total_invoice_amount = 0 then 1 else m.total_invoice_amount

/-- Component 1 (lines 87-88): `overdue_score = 1 - min(overdue_amount /
total_invoice_amount, 1)`. -/
def overdue_score (m : Metrics) : ℚ := 1 - min (m.total_overdue_amount / tiaDefault m) 1

/-- Lines 95-96: the sum of the two severe aging bucket amounts. -/
def severe_overdue_amount (m : Metrics) : ℚ :=
  m.overdue_buckets.days61to90.amount + m.overdue_buckets.days90plus.amount

/-- Component 3 (lines 93-98): `aging_score = 1 - min(aging_penalty, 1)`. -/
def aging_score (m : Metrics) : ℚ := 1 - min (severe_overdue_amount m / tiaDefault m) 1

/-- Lines 100-104: the behavioral penalty (5% per dispute plus at most 10%
for recurring delays). -/
def behavioral_penalty (m : Metrics) : ℚ :=
  (if m.disputed_invoice_count > 0 then (5/100) * (m.disputed_invoice_count : ℚ) else 0)
    + min (m.recurring_delay_ratio * (10/100)) (10/100)

/-- Component 4 (line 105): `behavioral_score = 1 - min(behavioral_penalty, 1)`. -/
def behavioral_score (m : Metrics) : ℚ := 1 - min (behavioral_penalty m) 1

/-- Line 108: bonus up to 5% for clients over 500k total billing. -/
def project_value_bonus (m : Metrics) : ℚ := min (tiaDefault m / 500000) (5/100)

/-- Lines 134-146: the weighted sum of the four score components
(weights 0.40, 0.25, 0.20, 0.15). -/
def base_score (m : Metrics) : ℚ :=
  overdue_score m * (40/100) + m.on_time_payment_ratio * (25/100)
    + aging_score m * (20/100) + behavioral_score m * (15/100)

/-- The fixed neutral result of the insufficient-history branch
(lines 76-83). -/
def neutralScore : ScoreResult :=
  { client_score := 1/2
    sentiment_score := 1/2
    risk_level := "Medium"
    key_factors := [KeyFactor.LimitedHistory]
    recommendations := [Recommendation.MonitorInitialPayments, Recommendation.RequestUpfrontDeposit]
    analysis_summary := Summary.LimitedData }

/-- Lines 85-202: the weighted branch of `calculate_client_score`.
`final_sentiment_score` is computed from the base score before the trend
adjustment, bonus and clamp are applied; only `score` itself is clamped
to [0,1]. -/
def weightedScore (metrics : Metrics) (invoices : List Invoice) (today : ℤ) : ScoreResult :=
  let trend_adj := trend_adjustment invoices today
  let final_sentiment_score :=
    base_score metrics * (7/10) + metrics.sentiment_score_from_comm * (3/10)
  let score1 := base_score metrics + trend_adj + project_value_bonus metrics
  let score := max 0 (min 1 score1)
  let risk_level := if score < 1/2 then "High" else if score < 7/10 then "Medium" else "Low"
  let key_factors : List KeyFactor :=
    (if metrics.total_overdue_amount / tiaDefault metrics > 3/10
     then [KeyFactor.HighOverdueRatio (metrics.total_overdue_amount / tiaDefault metrics)] else [])
    ++ (if metrics.on_time_payment_ratio < 6/10
        then [KeyFactor.LowOnTimeRatio metrics.on_time_payment_ratio] else [])
    ++ (if trend_adj < 0 then [KeyFactor.WorseningTrend]
        else if trend_adj > 0 then [KeyFactor.ImprovingTrend] else [])
    ++ (if severe_overdue_amount metrics > 0 then [KeyFactor.SevereOverdue] else [])
    ++ (if metrics.disputed_invoice_count > 0
        then [KeyFactor.HighDisputes metrics.disputed_invoice_count] else [])
    ++ (if metrics.recurring_delay_ratio > 2/10 then [KeyFactor.RecurringDelays] else [])
  let key_factors := if key_factors = [] then [KeyFactor.ExcellentBehavior] else key_factors
  let recommendations : List Recommendation :=
    (if risk_level = "High"
     then [Recommendation.StricterTermsAndPenalties, Recommendation.RequireUpfrontDeposits]
     else if risk_level = "Medium"
     then [Recommendation.EarlyPaymentIncentives, Recommendation.MonitorUpcomingInvoices]
     else [Recommendation.ExtendedCreditTerms, Recommendation.MaintainCurrentTerms])
    ++ (if metrics.total_overdue_amount > 0 then [Recommendation.StructuredPaymentPlan] else [])
  { client_score := roundTo 4 score
    sentiment_score := roundTo 4 final_sentiment_score
    risk_level := risk_level
    key_factors := key_factors.take 5
    recommendations := recommendations.take 4
    analysis_summary := Summary.ScoreDriven score risk_level key_factors }

/-- `calculate_client_score` (lines 57-202): the early exit on at most one
past invoice (`or` defaults of lines 62-64: a zero `total_invoices`
becomes 1), else the weighted branch. `avg_overdue_days` and
`overdue_percentage` are read by the source (lines 66-67) but never used
afterwards. `today` models the `timezone.now().date()` of line 112. -/
def calculate_client_score (metrics : Metrics) (invoices : List Invoice) (today : ℤ) : ScoreResult :=
  let total_invoices : ℤ := if metrics.total_invoices = 0 then 1 else (metrics.total_invoices : ℤ)
  let upcoming_invoices : ℤ := (metrics.upcoming_invoice_count : ℤ)
  let total_past_invoices := total_invoices - upcoming_invoices
  if total_past_invoices ≤ 1 then neutralScore
  else weightedScore metrics invoices today

/-- One customer's slice of the batch input: the customer record, its live
invoice list as fetched by the store read, and the sentiment score the
orchestrator attaches (already defaulted to 0.5 when the sentiment
collaborator failed, lines 430-441). -/
structure CustomerInput where
  customer : Customer
  invoices : List Invoice
  sentiment_score_from_comm : ℚ

/-- One entry of the batch `results` list: `metrics.update(score_details)`
merges the two dictionaries, whose key sets are disjoint, so the pair keeps
both. -/
structure CustomerResult where
  metrics : Metrics
  score : ScoreResult

/-- The batch response `{"results": [...]}`. -/
structure BatchResult where
  results : List CustomerResult

/-- The per-customer body of the orchestrator loop (lines 406-445):
metrics, then the attached sentiment score, then the score details. -/
def processCustomer (today : ℤ) (input : CustomerInput) : CustomerResult :=
  let metrics := calculate_client_metrics input.customer input.invoices today
  let metrics := { metrics with sentiment_score_from_comm := input.sentiment_score_from_comm }
  let score_details := calculate_client_score metrics input.invoices today
  { metrics := metrics, score := score_details }

/-- `get_grouped_customer_invoice_data` (lines 405-450) after the store
read: map the loop body over the customers. The source's final
`{"results": results} if results else {"results": []}` returns
`{"results": results}` in both branches, since an empty `results` is
already the empty list. -/
def get_grouped_customer_invoice_data (inputs : List CustomerInput) (today : ℤ) : BatchResult :=
  { results := inputs.map (processCustomer today) }

/-- The overdue invoices of a list, in order: the invoices the overdue
branch of the metrics loop fires for. -/
def overdueInvoices (invoices : List Invoice) (today : ℤ) : List Invoice :=
  invoices.filter (fun inv => inv.overdueB today)

/-- The sum of the four non-upcoming bucket amounts. -/
def bucketSum4 (b : OverdueBuckets) : ℚ :=
  b.days0to30.amount + b.days31to60.amount + b.days61to90.amount + b.days90plus.amount

/-- All five bucket amounts are nonnegative. -/
def bucketsNonneg (b : OverdueBuckets) : Prop :=
  0 ≤ b.upcoming.amount ∧ 0 ≤ b.days0to30.amount ∧ 0 ≤ b.days31to60.amount ∧
    0 ≤ b.days61to90.amount ∧ 0 ≤ b.days90plus.amount

/-- A sample customer for concrete instantiations. -/
def exCustomer : Customer := { customer_id := 1, customer_name := "Acme" }

/-- A single overdue invoice whose caller-supplied `amount_overdue` (50)
differs from its computed receivable (100): due 10 days before the
reference date 1000. -/
def invC3 : Invoice :=
  { db_invoice_id := some 1, invoice_number := none, project_name := none,
    milestone_name := none, currency_type := none, invoice_date := some 900,
    due_date := some 990, invoice_amount := 100, amount_overdue := 50,
    is_disputed := false, upcoming_payment_date := none,
    last_paid_amount := 0, last_paid_date := none }

/-- An overpaid invoice: `last_paid_amount` (150) exceeds
`invoice_amount` (100). -/
def invC4 : Invoice :=
  { db_invoice_id := none, invoice_number := none, project_name := none,
    milestone_name := none, currency_type := none, invoice_date := none,
    due_date := none, invoice_amount := 100, amount_overdue := 0,
    is_disputed := false, upcoming_payment_date := none,
    last_paid_amount := 150, last_paid_date := none }

/-- A single fully-paid-on-time invoice with no upcoming payment date. -/
def invC7 : Invoice :=
  { db_invoice_id := some 9, invoice_number := none, project_name := none,
    milestone_name := none, currency_type := none, invoice_date := some 900,
    due_date := some 990, invoice_amount := 100, amount_overdue := 0,
    is_disputed := false, upcoming_payment_date := none,
    last_paid_amount := 100, last_paid_date := some 980 }

/-- A sample batch input slice. -/
def exInput : CustomerInput :=
  { customer := exCustomer, invoices := [invC3], sentiment_score_from_comm := 1/2 }

/-- The weighted average the amended C3 states: numerator sums
days_overdue times the caller-supplied `amount_overdue` looked up by
invoice id (0 when no match), denominator sums the overdue receivables;
0 when there is no overdue invoice. -/
def avgOverdueDaysAmended (invoices : List Invoice) (today : ℤ) : ℚ :=
  let F := overdueInvoices invoices today
  let num := (F.map (fun i =>
    ((i.days_overdue today : ℤ) : ℚ) * lookupAmountOverdue invoices i.db_invoice_id)).sum
  let den := (F.map (fun i => i.receivable)).sum
  if den = 0 then 0 else num / den

/-- The pair collection the claim C8 describes: exactly the invoices whose
due date is known and before today and whose caller-supplied
`amount_overdue` is positive (an `(invoice_date, days_overdue)` pair needs
a known invoice date), in list order. -/
def trendPairsSpec (invoices : List Invoice) (today : ℤ) : List (ℤ × ℤ) :=
  (invoices.filter (fun inv =>
    match inv.due_date, inv.invoice_date with
    | some d, some _ => decide (d < today) && decide (inv.amount_overdue > 0)
    | _, _ => false)).map
    (fun inv => (inv.invoice_date.getD 0, today - inv.due_date.getD 0))

/-- The trend adjustment the claim C8 describes: with fewer than 2 pairs
0.0; otherwise sort ascending by invoice date, split at the floor
midpoint (recent half keeps the midpoint), and compare the means:
-0.1 when mean(recent) > mean(older) * 1.1 and mean(older) > 0, +0.1 when
mean(recent) < mean(older) * 0.9, else 0.0. -/
def trendAdjustmentSpec (invoices : List Invoice) (today : ℤ) : ℚ :=
  let pairs := trendPairsSpec invoices today
  if pairs.length < 2 then 0
  else
    let sorted := sortByDate pairs
    let midpoint := sorted.length / 2
    let older : List ℤ := (sorted.take midpoint).map (fun p => p.2)
    let recent : List ℤ := (sorted.drop midpoint).map (fun p => p.2)
    let avgOlder : ℚ := ((older.foldl (fun a b => a + b) 0 : ℤ) : ℚ) / (older.length : ℚ)
    let avgRecent : ℚ := ((recent.foldl (fun a b => a + b) 0 : ℤ) : ℚ) / (recent.length : ℚ)
    if avgRecent > avgOlder * (11/10) ∧ avgOlder > 0 then -(1/10)
    else if avgRecent < avgOlder * (9/10) then 1/10
    else 0

/-- A fully paid on-time invoice; `upc` sets its upcoming payment date. -/
def paidInvoice (id : ℤ) (upc : Option ℤ) : Invoice :=
  { db_invoice_id := some id, invoice_number := none, project_name := none,
    milestone_name := none, currency_type := none, invoice_date := some 900,
    due_date := some 990, invoice_amount := 100, amount_overdue := 0,
    is_disputed := false, upcoming_payment_date := upc,
    last_paid_amount := 100, last_paid_date := some 980 }

/-- An all-empty invoice record. -/
def blankInvoice : Invoice :=
  { db_invoice_id := none, invoice_number := none, project_name := none,
    milestone_name := none, currency_type := none, invoice_date := none,
    due_date := none, invoice_amount := 0, amount_overdue := 0,
    is_disputed := false, upcoming_payment_date := none,
    last_paid_amount := 0, last_paid_date := none }

/-- Five invoices: four fully paid on time, two of them also carrying a
future upcoming payment date, plus one blank invoice. -/
def invsC1 : List Invoice :=
  [paidInvoice 1 (some 1010), paidInvoice 2 (some 1010),
   paidInvoice 3 none, paidInvoice 4 none, blankInvoice]

theorem updTotals_keeps (i : Invoice) (s : LoopState) :
    (updTotals i s).total_overdue_amount = s.total_overdue_amount ∧
    (updTotals i s).overdue_buckets = s.overdue_buckets ∧
    (updTotals i s).overdue_days_list = s.overdue_days_list ∧
    (updTotals i s).overdue_invoice_ids = s.overdue_invoice_ids ∧
    (updTotals i s).overdue_amount_list = s.overdue_amount_list :=
  ⟨rfl, rfl, rfl, rfl, rfl⟩

theorem updTotals_totals (i : Invoice) (s : LoopState) :
    (updTotals i s).total_invoice_amount = s.total_invoice_amount + i.invoice_amount ∧
    (updTotals i s).total_received = s.total_received + i.last_paid_amount ∧
    (updTotals i s).total_receivable = s.total_receivable + i.receivable :=
  ⟨rfl, rfl, rfl⟩

theorem updDisputed_keeps (i : Invoice) (s : LoopState) :
    (updDisputed i s).total_invoice_amount = s.total_invoice_amount ∧
    (updDisputed i s).total_received = s.total_received ∧
    (updDisputed i s).total_receivable = s.total_receivable ∧
    (updDisputed i s).total_overdue_amount = s.total_overdue_amount ∧
    (updDisputed i s).overdue_buckets = s.overdue_buckets ∧
    (updDisputed i s).overdue_days_list = s.overdue_days_list ∧
    (updDisputed i s).overdue_invoice_ids = s.overdue_invoice_ids ∧
    (updDisputed i s).overdue_amount_list = s.overdue_amount_list := by
  unfold updDisputed
  split <;> exact ⟨rfl, rfl, rfl, rfl, rfl, rfl, rfl, rfl⟩

theorem updLastInvoiceDate_keeps (i : Invoice) (s : LoopState) :
    (updLastInvoiceDate i s).total_invoice_amount = s.total_invoice_amount ∧
    (updLastInvoiceDate i s).total_received = s.total_received ∧
    (updLastInvoiceDate i s).total_receivable = s.total_receivable ∧
    (updLastInvoiceDate i s).total_overdue_amount = s.total_overdue_amount ∧
    (updLastInvoiceDate i s).overdue_buckets = s.overdue_buckets ∧
    (updLastInvoiceDate i s).overdue_days_list = s.overdue_days_list ∧
    (updLastInvoiceDate i s).overdue_invoice_ids = s.overdue_invoice_ids ∧
    (updLastInvoiceDate i s).overdue_amount_list = s.overdue_amount_list := by
  unfold updLastInvoiceDate
  repeat' split
  all_goals exact ⟨rfl, rfl, rfl, rfl, rfl, rfl, rfl, rfl⟩

theorem updTiming_keeps (i : Invoice) (s : LoopState) :
    (updTiming i s).total_invoice_amount = s.total_invoice_amount ∧
    (updTiming i s).total_received = s.total_received ∧
    (updTiming i s).total_receivable = s.total_receivable ∧
    (updTiming i s).total_overdue_amount = s.total_overdue_amount ∧
    (updTiming i s).overdue_buckets = s.overdue_buckets ∧
    (updTiming i s).overdue_days_list = s.overdue_days_list ∧
    (updTiming i s).overdue_invoice_ids = s.overdue_invoice_ids ∧
    (updTiming i s).overdue_amount_list = s.overdue_amount_list := by
  unfold updTiming
  repeat' split
  all_goals exact ⟨rfl, rfl, rfl, rfl, rfl, rfl, rfl, rfl⟩

theorem updUpcoming_keeps (t : ℤ) (i : Invoice) (s : LoopState) :
    (updUpcoming t i s).total_invoice_amount = s.total_invoice_amount ∧
    (updUpcoming t i s).total_received = s.total_received ∧
    (updUpcoming t i s).total_receivable = s.total_receivable ∧
    (updUpcoming t i s).total_overdue_amount = s.total_overdue_amount ∧
    (updUpcoming t i s).overdue_buckets = s.overdue_buckets ∧
    (updUpcoming t i s).overdue_days_list = s.overdue_days_list ∧
    (updUpcoming t i s).overdue_invoice_ids = s.overdue_invoice_ids ∧
    (updUpcoming t i s).overdue_amount_list = s.overdue_amount_list := by
  unfold updUpcoming
  repeat' split
  all_goals exact ⟨rfl, rfl, rfl, rfl, rfl, rfl, rfl, rfl⟩

theorem updDetails_keeps (c : Customer) (t : ℤ) (i : Invoice) (s : LoopState) :
    (updDetails c t i s).total_invoice_amount = s.total_invoice_amount ∧
    (updDetails c t i s).total_received = s.total_received ∧
    (updDetails c t i s).total_receivable = s.total_receivable ∧
    (updDetails c t i s).total_overdue_amount = s.total_overdue_amount ∧
    (updDetails c t i s).overdue_buckets = s.overdue_buckets ∧
    (updDetails c t i s).overdue_days_list = s.overdue_days_list ∧
    (updDetails c t i s).overdue_invoice_ids = s.overdue_invoice_ids ∧
    (updDetails c t i s).overdue_amount_list = s.overdue_amount_list :=
  ⟨rfl, rfl, rfl, rfl, rfl, rfl, rfl, rfl⟩

theorem updOverdue_keeps (t : ℤ) (i : Invoice) (s : LoopState) :
    (updOverdue t i s).total_invoice_amount = s.total_invoice_amount ∧
    (updOverdue t i s).total_received = s.total_received ∧
    (updOverdue t i s).total_receivable = s.total_receivable := by
  unfold updOverdue
  repeat' split
  all_goals exact ⟨rfl, rfl, rfl⟩

theorem updOverdue_eq (t : ℤ) (i : Invoice) (s : LoopState) :
    (updOverdue t i s).total_overdue_amount
        = (if i.overdueB t then s.total_overdue_amount + i.receivable else s.total_overdue_amount) ∧
    (updOverdue t i s).overdue_buckets
        = (if i.overdueB t
           then s.overdue_buckets.add (get_overdue_bucket (i.days_overdue t)) i.receivable
           else s.overdue_buckets) ∧
    (updOverdue t i s).overdue_days_list
        = (if i.overdueB t then s.overdue_days_list ++ [i.days_overdue t] else s.overdue_days_list) ∧
    (updOverdue t i s).overdue_invoice_ids
        = (if i.overdueB t then s.overdue_invoice_ids ++ [i.db_invoice_id] else s.overdue_invoice_ids) ∧
    (updOverdue t i s).overdue_amount_list
        = (if i.overdueB t then s.overdue_amount_list ++ [i.receivable] else s.overdue_amount_list) := by
  unfold updOverdue Invoice.overdueB Invoice.days_overdue
  cases hd : i.due_date with
  | none => simp
  | some d =>
    by_cases h1 : d < t <;> by_cases h2 : i.receivable > 0 <;>
      simp [h1, h2, Option.getD]

theorem metricsStep_totals (c : Customer) (t : ℤ) (s : LoopState) (i : Invoice) :
    (metricsStep c t s i).total_invoice_amount = s.total_invoice_amount + i.invoice_amount ∧
    (metricsStep c t s i).total_received = s.total_received + i.last_paid_amount ∧
    (metricsStep c t s i).total_receivable = s.total_receivable + i.receivable := by
  simp only [metricsStep, updDetails_keeps, updUpcoming_keeps, updTiming_keeps,
    updOverdue_keeps, updLastInvoiceDate_keeps, updDisputed_keeps, updTotals_totals]
  refine ⟨?_, ?_, ?_⟩ <;> trivial

theorem metricsStep_overdue (c : Customer) (t : ℤ) (s : LoopState) (i : Invoice) :
    (metricsStep c t s i).total_overdue_amount
        = (if i.overdueB t then s.total_overdue_amount + i.receivable else s.total_overdue_amount) ∧
    (metricsStep c t s i).overdue_buckets
        = (if i.overdueB t
           then s.overdue_buckets.add (get_overdue_bucket (i.days_overdue t)) i.receivable
           else s.overdue_buckets) ∧
    (metricsStep c t s i).overdue_days_list
        = (if i.overdueB t then s.overdue_days_list ++ [i.days_overdue t] else s.overdue_days_list) ∧
    (metricsStep c t s i).overdue_invoice_ids
        = (if i.overdueB t then s.overdue_invoice_ids ++ [i.db_invoice_id] else s.overdue_invoice_ids) ∧
    (metricsStep c t s i).overdue_amount_list
        = (if i.overdueB t then s.overdue_amount_list ++ [i.receivable] else s.overdue_amount_list) := by
  simp only [metricsStep, updDetails_keeps, updUpcoming_keeps, updTiming_keeps,
    updOverdue_eq, updLastInvoiceDate_keeps, updDisputed_keeps, updTotals_keeps]
  refine ⟨?_, ?_, ?_, ?_, ?_⟩ <;> trivial

theorem rhe_cases (q : ℚ) : rhe q = ⌊q⌋ ∨ rhe q = ⌊q⌋ + 1 := by
  unfold rhe
  split_ifs <;> simp

theorem rhe_nonneg (q : ℚ) (h : 0 ≤ q) : 0 ≤ rhe q := by
  have hf := Int.floor_nonneg.mpr h
  rcases rhe_cases q with h1 | h1 <;> omega

theorem rhe_le_int (q : ℚ) (n : ℤ) (h : q ≤ (n : ℚ)) : rhe q ≤ n := by
  have hfl : ⌊q⌋ ≤ n := by simpa using Int.floor_le_floor h
  have key : 1/2 ≤ q - ⌊q⌋ → ⌊q⌋ + 1 ≤ n := by
    intro hr
    have h1 : (⌊q⌋ : ℚ) < q := by linarith
    have h2 : (⌊q⌋ : ℚ) < (n : ℚ) := lt_of_lt_of_le h1 h
    have h3 : ⌊q⌋ < n := by exact_mod_cast h2
    omega
  unfold rhe
  split_ifs with h1 h2 h3
  · exact hfl
  · exact key (le_of_lt h2)
  · exact hfl
  · exact key (not_lt.mp h1)

theorem roundTo_nonneg (n : ℕ) (q : ℚ) (h : 0 ≤ q) : 0 ≤ roundTo n q := by
  unfold roundTo
  apply div_nonneg _ (by positivity)
  exact_mod_cast rhe_nonneg _ (by positivity)

theorem roundTo_le_one (n : ℕ) (q : ℚ) (h : q ≤ 1) : roundTo n q ≤ 1 := by
  unfold roundTo
  rw [div_le_one (by positivity)]
  have hx : rhe (q * 10 ^ n) ≤ (10 : ℤ) ^ n := by
    apply rhe_le_int
    push_cast
    nlinarith [pow_pos (show (0:ℚ) < 10 by norm_num) n]
  exact_mod_cast hx

theorem foldl_overdue_lists (c : Customer) (t : ℤ) (l : List Invoice) (s : LoopState) :
    (l.foldl (metricsStep c t) s).overdue_days_list
      = s.overdue_days_list ++ (overdueInvoices l t).map (fun i => i.days_overdue t) ∧
    (l.foldl (metricsStep c t) s).overdue_invoice_ids
      = s.overdue_invoice_ids ++ (overdueInvoices l t).map (fun i => i.db_invoice_id) ∧
    (l.foldl (metricsStep c t) s).overdue_amount_list
      = s.overdue_amount_list ++ (overdueInvoices l t).map (fun i => i.receivable) := by
  induction l generalizing s with
  | nil => simp [overdueInvoices]
  | cons i l ih =>
    simp only [List.foldl_cons]
    obtain ⟨h1, h2, h3⟩ := ih (metricsStep c t s i)
    obtain ⟨g1, g2, g3, g4, g5⟩ := metricsStep_overdue c t s i
    rw [h1, h2, h3, g3, g4, g5]
    by_cases hb : i.overdueB t <;> simp [overdueInvoices, hb]

theorem foldl_totals (c : Customer) (t : ℤ) (l : List Invoice) (s : LoopState) :
    (l.foldl (metricsStep c t) s).total_invoice_amount
      = s.total_invoice_amount + (l.map (fun i => i.invoice_amount)).sum ∧
    (l.foldl (metricsStep c t) s).total_received
      = s.total_received + (l.map (fun i => i.last_paid_amount)).sum ∧
    (l.foldl (metricsStep c t) s).total_receivable
      = s.total_receivable + (l.map (fun i => i.receivable)).sum := by
  induction l generalizing s with
  | nil => simp
  | cons i l ih =>
    simp only [List.foldl_cons]
    obtain ⟨h1, h2, h3⟩ := ih (metricsStep c t s i)
    obtain ⟨g1, g2, g3⟩ := metricsStep_totals c t s i
    rw [h1, h2, h3, g1, g2, g3]
    simp only [List.map_cons, List.sum_cons]
    refine ⟨by ring, by ring, by ring⟩

theorem get_overdue_bucket_ne_upcoming (d : ℤ) : get_overdue_bucket d ≠ BucketName.Upcoming := by
  unfold get_overdue_bucket
  split_ifs <;> simp

theorem bucketSum4_add (b : OverdueBuckets) (name : BucketName) (amt : ℚ)
    (h : name ≠ BucketName.Upcoming) : bucketSum4 (b.add name amt) = bucketSum4 b + amt := by
  cases name with
  | Upcoming => exact absurd rfl h
  | Days0to30 => simp only [OverdueBuckets.add, bucketSum4]; ring
  | Days31to60 => simp only [OverdueBuckets.add, bucketSum4]; ring
  | Days61to90 => simp only [OverdueBuckets.add, bucketSum4]; ring
  | Days90plus => simp only [OverdueBuckets.add, bucketSum4]; ring

theorem add_upcoming (b : OverdueBuckets) (name : BucketName) (amt : ℚ)
    (h : name ≠ BucketName.Upcoming) : (b.add name amt).upcoming = b.upcoming := by
  cases name with
  | Upcoming => exact absurd rfl h
  | Days0to30 => rfl
  | Days31to60 => rfl
  | Days61to90 => rfl
  | Days90plus => rfl

theorem foldl_bucket_sum (c : Customer) (t : ℤ) (l : List Invoice) (s : LoopState) :
    bucketSum4 (l.foldl (metricsStep c t) s).overdue_buckets
        - (l.foldl (metricsStep c t) s).total_overdue_amount
      = bucketSum4 s.overdue_buckets - s.total_overdue_amount := by
  induction l generalizing s with
  | nil => rfl
  | cons i l ih =>
    simp only [List.foldl_cons]
    rw [ih (metricsStep c t s i)]
    obtain ⟨g1, g2, g3, g4, g5⟩ := metricsStep_overdue c t s i
    rw [g1, g2]
    by_cases hb : i.overdueB t
    · simp only [hb, if_true]
      rw [bucketSum4_add _ _ _ (get_overdue_bucket_ne_upcoming _)]
      ring
    · simp [hb]

theorem foldl_upcoming_bucket (c : Customer) (t : ℤ) (l : List Invoice) (s : LoopState) :
    (l.foldl (metricsStep c t) s).overdue_buckets.upcoming = s.overdue_buckets.upcoming := by
  induction l generalizing s with
  | nil => rfl
  | cons i l ih =>
    simp only [List.foldl_cons]
    rw [ih (metricsStep c t s i)]
    obtain ⟨g1, g2, g3, g4, g5⟩ := metricsStep_overdue c t s i
    rw [g2]
    by_cases hb : i.overdueB t
    · simp only [hb, if_true]
      exact add_upcoming _ _ _ (get_overdue_bucket_ne_upcoming _)
    · simp [hb]

theorem Invoice.receivable_nonneg (i : Invoice) : 0 ≤ i.receivable := le_max_right _ _

theorem foldl_overdue_nonneg (c : Customer) (t : ℤ) (l : List Invoice) (s : LoopState)
    (h : 0 ≤ s.total_overdue_amount) : 0 ≤ (l.foldl (metricsStep c t) s).total_overdue_amount := by
  induction l generalizing s with
  | nil => exact h
  | cons i l ih =>
    simp only [List.foldl_cons]
    apply ih
    obtain ⟨g1, _, _, _, _⟩ := metricsStep_overdue c t s i
    rw [g1]
    by_cases hb : i.overdueB t
    · simp only [hb, if_true]
      have := Invoice.receivable_nonneg i
      linarith
    · simpa [hb]

theorem bucketsNonneg_add (b : OverdueBuckets) (name : BucketName) (amt : ℚ)
    (hb : bucketsNonneg b) (ha : 0 ≤ amt) : bucketsNonneg (b.add name amt) := by
  obtain ⟨h1, h2, h3, h4, h5⟩ := hb
  cases name with
  | Upcoming => exact ⟨add_nonneg h1 ha, h2, h3, h4, h5⟩
  | Days0to30 => exact ⟨h1, add_nonneg h2 ha, h3, h4, h5⟩
  | Days31to60 => exact ⟨h1, h2, add_nonneg h3 ha, h4, h5⟩
  | Days61to90 => exact ⟨h1, h2, h3, add_nonneg h4 ha, h5⟩
  | Days90plus => exact ⟨h1, h2, h3, h4, add_nonneg h5 ha⟩

theorem foldl_buckets_nonneg (c : Customer) (t : ℤ) (l : List Invoice) (s : LoopState)
    (h : bucketsNonneg s.overdue_buckets) :
    bucketsNonneg (l.foldl (metricsStep c t) s).overdue_buckets := by
  induction l generalizing s with
  | nil => exact h
  | cons i l ih =>
    simp only [List.foldl_cons]
    apply ih
    obtain ⟨_, g2, _, _, _⟩ := metricsStep_overdue c t s i
    rw [g2]
    by_cases hb : i.overdueB t
    · simp only [hb, if_true]
      exact bucketsNonneg_add _ _ _ h (Invoice.receivable_nonneg i)
    · simpa [hb]

/-- C6: for every days_overdue arising from an overdue invoice (so at least
1), `get_overdue_bucket` maps it with boundaries inclusive on both ends:
values up to 30 to "0-30 days", 31 to 60 to "31-60 days", 61 to 90 to
"61-90 days", and values above 90 to "90+ days". -/
theorem C6_bucket_boundaries (d : ℤ) (_hd : 1 ≤ d) :
    (d ≤ 30 → bucketLabel (get_overdue_bucket d) = "0-30 days") ∧
    (31 ≤ d → d ≤ 60 → bucketLabel (get_overdue_bucket d) = "31-60 days") ∧
    (61 ≤ d → d ≤ 90 → bucketLabel (get_overdue_bucket d) = "61-90 days") ∧
    (91 ≤ d → bucketLabel (get_overdue_bucket d) = "90+ days") := by
  unfold get_overdue_bucket
  refine ⟨fun h1 => ?_, fun h1 h2 => ?_, fun h1 h2 => ?_, fun h1 => ?_⟩ <;>
    (split_ifs <;> first | rfl | omega)

/-- C6 witness: the boundary value 31 is overdue (31 ≥ 1) and buckets into
"31-60 days". -/
theorem C6_witness :
    (1 : ℤ) ≤ 31 ∧ bucketLabel (get_overdue_bucket 31) = "31-60 days" :=
  ⟨by norm_num, (C6_bucket_boundaries 31 (by norm_num)).2.1 (by norm_num) (by norm_num)⟩

/-- C10: for every invoice list, the "Upcoming" entry of `overdue_buckets`
in the metrics returned by `calculate_client_metrics` has count 0 and
amount 0: it is initialized but never added to. -/
theorem C10_upcoming_bucket_zero (c : Customer) (invs : List Invoice) (t : ℤ) :
    (calculate_client_metrics c invs t).overdue_buckets.upcoming = { count := 0, amount := 0 } := by
  have e : (calculate_client_metrics c invs t).overdue_buckets
      = (invs.foldl (metricsStep c t) initState).overdue_buckets := rfl
  rw [e, foldl_upcoming_bucket]
  rfl

/-- C5: for every invoice list, the amounts of the four non-"Upcoming"
aging buckets sum exactly to `total_overdue_amount` (exact equality over
rationals). -/
theorem C5_bucket_sum (c : Customer) (invs : List Invoice) (t : ℤ) :
    (calculate_client_metrics c invs t).overdue_buckets.days0to30.amount
      + (calculate_client_metrics c invs t).overdue_buckets.days31to60.amount
      + (calculate_client_metrics c invs t).overdue_buckets.days61to90.amount
      + (calculate_client_metrics c invs t).overdue_buckets.days90plus.amount
      = (calculate_client_metrics c invs t).total_overdue_amount := by
  have e1 : (calculate_client_metrics c invs t).overdue_buckets
      = (invs.foldl (metricsStep c t) initState).overdue_buckets := rfl
  have e2 : (calculate_client_metrics c invs t).total_overdue_amount
      = (invs.foldl (metricsStep c t) initState).total_overdue_amount := rfl
  have h := foldl_bucket_sum c t invs initState
  have h0 : bucketSum4 initState.overdue_buckets - initState.total_overdue_amount = 0 := by
    norm_num [bucketSum4, initState]
  rw [e1, e2]
  simp only [bucketSum4] at h h0
  linarith

/-- C9: the batch entry point on an empty customer collection returns
`{"results": []}` (it is a total function, so it cannot raise), and
`calculate_client_metrics` on an empty invoice list returns zero
cumulative totals, `total_invoices = 0` and all aging buckets at count 0
and amount 0. -/
theorem C9_empty_inputs :
    (∀ t : ℤ, get_grouped_customer_invoice_data [] t = { results := [] }) ∧
    (∀ (c : Customer) (t : ℤ),
      (calculate_client_metrics c [] t).total_invoices = 0 ∧
      (calculate_client_metrics c [] t).total_invoice_amount = 0 ∧
      (calculate_client_metrics c [] t).total_received = 0 ∧
      (calculate_client_metrics c [] t).total_receivable = 0 ∧
      (calculate_client_metrics c [] t).total_overdue_amount = 0 ∧
      (calculate_client_metrics c [] t).upcoming_invoice_amount = 0 ∧
      (calculate_client_metrics c [] t).overdue_buckets =
        { upcoming := { count := 0, amount := 0 }
          days0to30 := { count := 0, amount := 0 }
          days31to60 := { count := 0, amount := 0 }
          days61to90 := { count := 0, amount := 0 }
          days90plus := { count := 0, amount := 0 } }) :=
  ⟨fun _ => rfl, fun _ _ => ⟨rfl, rfl, rfl, rfl, rfl, rfl, rfl⟩⟩

/-- C2: running the metrics pass followed by the scoring pass twice on
equal inputs with an equal injected reference date gives equal output:
the pipeline is a pure function of (customer, invoices, sentiment, today),
with no hidden randomness. -/
theorem C2_deterministic (a b : CustomerInput) (t u : ℤ) (hab : a = b) (htu : t = u) :
    processCustomer t a = processCustomer u b := by
  subst hab
  subst htu
  rfl

/-- C2 witness: two runs on a concrete input agree. -/
theorem C2_witness : processCustomer 1000 exInput = processCustomer 1000 exInput :=
  C2_deterministic exInput exInput 1000 1000 rfl rfl

/-- C7: whenever the metrics' `total_invoices - upcoming_invoice_count` is
at most 1, `calculate_client_score` returns the fixed neutral result:
score 0.5, sentiment 0.5, risk "Medium", one key factor and two
recommendations, skipping the weighted computation. -/
theorem C7_neutral_early_exit (m : Metrics) (invs : List Invoice) (t : ℤ)
    (h : (m.total_invoices : ℤ) - (m.upcoming_invoice_count : ℤ) ≤ 1) :
    calculate_client_score m invs t =
      { client_score := 1/2, sentiment_score := 1/2, risk_level := "Medium",
        key_factors := [KeyFactor.LimitedHistory],
        recommendations := [Recommendation.MonitorInitialPayments,
          Recommendation.RequestUpfrontDeposit],
        analysis_summary := Summary.LimitedData } := by
  have hcond : (if m.total_invoices = 0 then 1 else (m.total_invoices : ℤ))
      - (m.upcoming_invoice_count : ℤ) ≤ 1 := by
    split_ifs with h0
    · omega
    · exact h
  simp only [calculate_client_score]
  rw [if_pos hcond]
  rfl

/-- C7 witness: a customer with exactly one (fully paid, non-upcoming)
invoice hits the neutral branch through the real metrics pipeline. -/
theorem C7_witness :
    ((calculate_client_metrics exCustomer [invC7] 1000).total_invoices : ℤ)
        - ((calculate_client_metrics exCustomer [invC7] 1000).upcoming_invoice_count : ℤ) ≤ 1 ∧
      calculate_client_score (calculate_client_metrics exCustomer [invC7] 1000) [invC7] 1000 =
        { client_score := 1/2, sentiment_score := 1/2, risk_level := "Medium",
          key_factors := [KeyFactor.LimitedHistory],
          recommendations := [Recommendation.MonitorInitialPayments,
            Recommendation.RequestUpfrontDeposit],
          analysis_summary := Summary.LimitedData } :=
  ⟨by norm_num [calculate_client_metrics, metricsStep, updDetails, updUpcoming, updTiming,
      updOverdue, updLastInvoiceDate, updDisputed, updTotals, initState, Invoice.receivable,
      invC7, exCustomer],
    C7_neutral_early_exit _ _ _ (by norm_num [calculate_client_metrics, metricsStep, updDetails,
      updUpcoming, updTiming, updOverdue, updLastInvoiceDate, updDisputed, updTotals, initState,
      Invoice.receivable, invC7, exCustomer])⟩

/-- C4 counterexample: for an overpaid invoice (amount 100, paid 150) the
sum invariant fails: total invoiced 100, received 150, receivable 0. -/
theorem C4_counterexample :
    ¬ ((calculate_client_metrics exCustomer [invC4] 1000).total_invoice_amount
        = (calculate_client_metrics exCustomer [invC4] 1000).total_received
          + (calculate_client_metrics exCustomer [invC4] 1000).total_receivable) := by
  norm_num [calculate_client_metrics, metricsStep, updDetails, updUpcoming, updTiming,
    updOverdue, updLastInvoiceDate, updDisputed, updTotals, initState, Invoice.receivable,
    invC4, exCustomer]

/-- Per-invoice sum decomposition used by the amended C4: when no invoice
is overpaid, the invoiced totals split into received plus receivable. -/
theorem sums_eq (l : List Invoice) (h : ∀ i ∈ l, i.last_paid_amount ≤ i.invoice_amount) :
    (l.map (fun i => i.invoice_amount)).sum
      = (l.map (fun i => i.last_paid_amount)).sum + (l.map (fun i => i.receivable)).sum := by
  induction l with
  | nil => simp
  | cons i l ih =>
    have hi : i.receivable = i.invoice_amount - i.last_paid_amount := by
      have := h i (by simp)
      unfold Invoice.receivable
      rw [max_eq_left (by linarith)]
    simp only [List.map_cons, List.sum_cons]
    rw [ih (fun j hj => h j (by simp [hj])), hi]
    ring

/-- C4 amended: the invariant `total_invoice_amount = total_received +
total_receivable` holds for every invoice list in which no invoice is
overpaid (`last_paid_amount ≤ invoice_amount` for each invoice); the
per-invoice equation `receivable = invoice_amount - last_paid_amount`
needs that bound because receivable is clamped at 0. -/
theorem C4_amended (c : Customer) (invs : List Invoice) (t : ℤ)
    (h : ∀ inv ∈ invs, inv.last_paid_amount ≤ inv.invoice_amount) :
    (calculate_client_metrics c invs t).total_invoice_amount
      = (calculate_client_metrics c invs t).total_received
        + (calculate_client_metrics c invs t).total_receivable := by
  obtain ⟨e1, e2, e3⟩ := foldl_totals c t invs initState
  have p1 : (calculate_client_metrics c invs t).total_invoice_amount
      = (invs.foldl (metricsStep c t) initState).total_invoice_amount := rfl
  have p2 : (calculate_client_metrics c invs t).total_received
      = (invs.foldl (metricsStep c t) initState).total_received := rfl
  have p3 : (calculate_client_metrics c invs t).total_receivable
      = (invs.foldl (metricsStep c t) initState).total_receivable := rfl
  rw [p1, p2, p3, e1, e2, e3]
  have := sums_eq invs h
  simp only [initState]
  linarith

/-- C4 witness: the amended invariant at a concrete non-overpaid invoice. -/
theorem C4_witness :
    (∀ inv ∈ [invC3], inv.last_paid_amount ≤ inv.invoice_amount) ∧
      (calculate_client_metrics exCustomer [invC3] 1000).total_invoice_amount
        = (calculate_client_metrics exCustomer [invC3] 1000).total_received
          + (calculate_client_metrics exCustomer [invC3] 1000).total_receivable :=
  ⟨by norm_num [invC3], C4_amended _ _ _ (by norm_num [invC3])⟩

/-- C3 counterexample: for the single overdue invoice `invC3` (10 days
overdue, caller-supplied weight 50, receivable 100) the claim's value
Σ(days times weight) / Σ(weight) is 10, but the code returns 5: the
denominator it divides by is the sum of overdue receivables, not the sum
of the weights. -/
theorem C3_counterexample :
    ¬ ((calculate_client_metrics exCustomer [invC3] 1000).avg_overdue_days
        = roundTo 2 ((((invC3.days_overdue 1000 : ℤ) : ℚ) * invC3.amount_overdue)
            / invC3.amount_overdue)) := by
  norm_num [calculate_client_metrics, metricsStep, updDetails, updUpcoming, updTiming,
    updOverdue, updLastInvoiceDate, updDisputed, updTotals, initState, Invoice.receivable,
    Invoice.overdueB, Invoice.days_overdue, lookupAmountOverdue, roundTo, rhe,
    invC3, exCustomer]

theorem foldl_add_gen {α : Type} (f : α → ℚ) (l : List α) (a : ℚ) :
    l.foldl (fun acc x => acc + f x) a = a + (l.map f).sum := by
  induction l generalizing a with
  | nil => simp
  | cons x l ih => simp [ih, add_assoc]

theorem foldl_add_id (l : List ℚ) (a : ℚ) : l.foldl (fun x y => x + y) a = a + l.sum := by
  induction l generalizing a with
  | nil => simp
  | cons x l ih => simp [ih, add_assoc]

/-- C3 amended: `avg_overdue_days` is the rounded quotient of
Σ(days_overdue times the caller-supplied `amount_overdue` looked up by
`db_invoice_id`, 0 when no match) over the overdue invoices, divided by
the sum of the overdue receivables (not the sum of the weights as the
claim states), and 0 when there is no overdue invoice. -/
theorem C3_amended (c : Customer) (invs : List Invoice) (t : ℤ) :
    (calculate_client_metrics c invs t).avg_overdue_days
      = roundTo 2 (avgOverdueDaysAmended invs t) := by
  obtain ⟨hd, hi, ha⟩ := foldl_overdue_lists c t invs initState
  have e : (calculate_client_metrics c invs t).avg_overdue_days
      = roundTo 2 (if (invs.foldl (metricsStep c t) initState).overdue_amount_list.foldl
            (fun a b => a + b) 0 = 0 then 0
          else (List.zip (invs.foldl (metricsStep c t) initState).overdue_days_list
                  (invs.foldl (metricsStep c t) initState).overdue_invoice_ids).foldl
                  (fun acc x => acc + (x.1 : ℚ) * lookupAmountOverdue invs x.2) 0
            / (invs.foldl (metricsStep c t) initState).overdue_amount_list.foldl
                (fun a b => a + b) 0) := rfl
  rw [e]
  congr 1
  rw [hd, hi, ha]
  simp only [initState, List.nil_append]
  rw [List.zip_map']
  rw [foldl_add_id, foldl_add_gen]
  rw [List.map_map]
  unfold avgOverdueDaysAmended
  simp only [zero_add, Function.comp_def]

theorem overduePairs_acc (invs : List Invoice) (t : ℤ) (acc : List (ℤ × ℤ)) :
    invs.foldl
      (fun acc inv =>
        match inv.due_date, inv.invoice_date with
        | some d, some i =>
          if d < t ∧ inv.amount_overdue > 0 then acc ++ [(i, t - d)] else acc
        | _, _ => acc)
      acc = acc ++ trendPairsSpec invs t := by
  induction invs generalizing acc with
  | nil => simp [trendPairsSpec]
  | cons inv l ih =>
    simp only [List.foldl_cons]
    rw [ih]
    cases hd : inv.due_date with
    | none => simp [trendPairsSpec, hd]
    | some d =>
      cases hi : inv.invoice_date with
      | none => simp [trendPairsSpec, hd, hi]
      | some i =>
        dsimp only
        by_cases hc : d < t ∧ inv.amount_overdue > 0
        · rw [if_pos hc]
          simp only [trendPairsSpec, List.filter_cons, hd, hi]
          rw [if_pos (by simp [hc.1, hc.2])]
          simp [hd, hi]
        · rw [if_neg hc]
          simp only [trendPairsSpec, List.filter_cons, hd, hi]
          have hcond : ¬(decide (d < t) && decide (inv.amount_overdue > 0)) = true := by
            simp only [Bool.and_eq_true, decide_eq_true_eq]
            exact fun hx => hc ⟨hx.1, hx.2⟩
          rw [if_neg hcond]

theorem overduePairs_eq (invs : List Invoice) (t : ℤ) :
    overduePairs invs t = trendPairsSpec invs t := by
  unfold overduePairs
  rw [overduePairs_acc]
  rfl

theorem insertPair_length (x : ℤ × ℤ) (l : List (ℤ × ℤ)) :
    (insertPair x l).length = l.length + 1 := by
  induction l with
  | nil => rfl
  | cons y ys ih =>
    unfold insertPair
    split
    · simp [ih]
    · simp

theorem sortByDate_length (l : List (ℤ × ℤ)) : (sortByDate l).length = l.length := by
  have key : ∀ (l acc : List (ℤ × ℤ)),
      (l.foldl (fun acc x => insertPair x acc) acc).length = acc.length + l.length := by
    intro l
    induction l with
    | nil => simp
    | cons x xs ih =>
      intro acc
      simp only [List.foldl_cons]
      rw [ih, insertPair_length]
      simp only [List.length_cons]
      omega
  unfold sortByDate
  rw [key]
  simp

/-- C8: the trend adjustment inside `calculate_client_score` equals the
claim's description: pairs collected exactly for invoices with a known
invoice date, a known due date before today and positive caller-supplied
overdue amount; fewer than 2 pairs give 0.0; otherwise sort ascending by
invoice date, split at the floor midpoint (recent half keeps the
midpoint) and compare means with the 1.1 / 0.9 thresholds. -/
theorem C8_trend_refines (invs : List Invoice) (t : ℤ) :
    trend_adjustment invs t = trendAdjustmentSpec invs t := by
  simp only [trend_adjustment, trendAdjustmentSpec, overduePairs_eq]
  by_cases h : (trendPairsSpec invs t).length ≥ 2
  · rw [if_pos h, if_neg (show ¬((trendPairsSpec invs t).length < 2) by omega)]
    have hlen : (sortByDate (trendPairsSpec invs t)).length = (trendPairsSpec invs t).length :=
      sortByDate_length _
    have hrec : ((sortByDate (trendPairsSpec invs t)).drop
        ((sortByDate (trendPairsSpec invs t)).length / 2)).map (fun p => p.2) ≠ [] := by
      apply List.ne_nil_of_length_pos
      simp only [List.length_map, List.length_drop]
      omega
    have hold : ((sortByDate (trendPairsSpec invs t)).take
        ((sortByDate (trendPairsSpec invs t)).length / 2)).map (fun p => p.2) ≠ [] := by
      apply List.ne_nil_of_length_pos
      simp only [List.length_map, List.length_take]
      omega
    rw [if_pos hrec, if_pos hold]
  · rw [if_neg h, if_pos (show (trendPairsSpec invs t).length < 2 by omega)]

theorem tiaDefault_pos (m : Metrics) (h1 : 0 ≤ m.total_invoice_amount) : 0 < tiaDefault m := by
  unfold tiaDefault
  split_ifs with h0
  · norm_num
  · exact lt_of_le_of_ne h1 (Ne.symm h0)

theorem overdue_score_mem (m : Metrics) (h1 : 0 ≤ m.total_invoice_amount)
    (h2 : 0 ≤ m.total_overdue_amount) :
    0 ≤ overdue_score m ∧ overdue_score m ≤ 1 := by
  unfold overdue_score
  constructor
  · have := min_le_right (m.total_overdue_amount / tiaDefault m) 1
    linarith
  · have := le_min (div_nonneg h2 (tiaDefault_pos m h1).le) (zero_le_one (α := ℚ))
    linarith

theorem aging_score_mem (m : Metrics) (h1 : 0 ≤ m.total_invoice_amount)
    (h3 : 0 ≤ m.overdue_buckets.days61to90.amount)
    (h4 : 0 ≤ m.overdue_buckets.days90plus.amount) :
    0 ≤ aging_score m ∧ aging_score m ≤ 1 := by
  unfold aging_score
  constructor
  · have := min_le_right (severe_overdue_amount m / tiaDefault m) 1
    linarith
  · have hsev : 0 ≤ severe_overdue_amount m := add_nonneg h3 h4
    have := le_min (div_nonneg hsev (tiaDefault_pos m h1).le) (zero_le_one (α := ℚ))
    linarith

theorem behavioral_score_mem (m : Metrics) (h7 : 0 ≤ m.recurring_delay_ratio) :
    0 ≤ behavioral_score m ∧ behavioral_score m ≤ 1 := by
  unfold behavioral_score
  constructor
  · have := min_le_right (behavioral_penalty m) 1
    linarith
  · have hpen : 0 ≤ behavioral_penalty m := by
      unfold behavioral_penalty
      apply add_nonneg
      · split_ifs
        · positivity
        · exact le_refl 0
      · exact le_min (by positivity) (by norm_num)
    have := le_min hpen (zero_le_one (α := ℚ))
    linarith

theorem base_score_mem (m : Metrics) (h1 : 0 ≤ m.total_invoice_amount)
    (h2 : 0 ≤ m.total_overdue_amount)
    (h3 : 0 ≤ m.overdue_buckets.days61to90.amount)
    (h4 : 0 ≤ m.overdue_buckets.days90plus.amount)
    (h5 : 0 ≤ m.on_time_payment_ratio) (h6 : m.on_time_payment_ratio ≤ 1)
    (h7 : 0 ≤ m.recurring_delay_ratio) :
    0 ≤ base_score m ∧ base_score m ≤ 1 := by
  obtain ⟨a0, a1⟩ := overdue_score_mem m h1 h2
  obtain ⟨b0, b1⟩ := aging_score_mem m h1 h3 h4
  obtain ⟨c0, c1⟩ := behavioral_score_mem m h7
  unfold base_score
  constructor <;> nlinarith

theorem score_bounds (m : Metrics) (invs : List Invoice) (t : ℤ)
    (h1 : 0 ≤ m.total_invoice_amount) (h2 : 0 ≤ m.total_overdue_amount)
    (h3 : 0 ≤ m.overdue_buckets.days61to90.amount)
    (h4 : 0 ≤ m.overdue_buckets.days90plus.amount)
    (h5 : 0 ≤ m.on_time_payment_ratio) (h6 : m.on_time_payment_ratio ≤ 1)
    (h7 : 0 ≤ m.recurring_delay_ratio)
    (h8 : 0 ≤ m.sentiment_score_from_comm) (h9 : m.sentiment_score_from_comm ≤ 1) :
    0 ≤ (calculate_client_score m invs t).client_score ∧
    (calculate_client_score m invs t).client_score ≤ 1 ∧
    0 ≤ (calculate_client_score m invs t).sentiment_score ∧
    (calculate_client_score m invs t).sentiment_score ≤ 1 := by
  simp only [calculate_client_score]
  by_cases hc : (if m.total_invoices = 0 then (1:ℤ) else (m.total_invoices : ℤ))
      - (m.upcoming_invoice_count : ℤ) ≤ 1
  · rw [if_pos hc]
    refine ⟨by norm_num [neutralScore], by norm_num [neutralScore],
      by norm_num [neutralScore], by norm_num [neutralScore]⟩
  · rw [if_neg hc]
    obtain ⟨hb0, hb1⟩ := base_score_mem m h1 h2 h3 h4 h5 h6 h7
    have e1 : (weightedScore m invs t).client_score
        = roundTo 4 (max 0 (min 1 (base_score m + trend_adjustment invs t
            + project_value_bonus m))) := rfl
    have e2 : (weightedScore m invs t).sentiment_score
        = roundTo 4 (base_score m * (7/10) + m.sentiment_score_from_comm * (3/10)) := rfl
    rw [e1, e2]
    refine ⟨roundTo_nonneg _ _ (le_max_left 0 _),
      roundTo_le_one _ _ (max_le zero_le_one (min_le_left 1 _)), ?_, ?_⟩
    · apply roundTo_nonneg
      nlinarith
    · apply roundTo_le_one
      nlinarith

theorem metrics_tia_nonneg (c : Customer) (invs : List Invoice) (t : ℤ)
    (hamt : ∀ inv ∈ invs, 0 ≤ inv.invoice_amount) :
    0 ≤ (calculate_client_metrics c invs t).total_invoice_amount := by
  have p : (calculate_client_metrics c invs t).total_invoice_amount
      = (invs.foldl (metricsStep c t) initState).total_invoice_amount := rfl
  rw [p, (foldl_totals c t invs initState).1]
  have hsum : 0 ≤ (invs.map (fun i => i.invoice_amount)).sum := by
    apply List.sum_nonneg
    intro x hx
    obtain ⟨i, hi, rfl⟩ := List.mem_map.mp hx
    exact hamt i hi
  simp only [initState]
  linarith

theorem metrics_tod_nonneg (c : Customer) (invs : List Invoice) (t : ℤ) :
    0 ≤ (calculate_client_metrics c invs t).total_overdue_amount := by
  have p : (calculate_client_metrics c invs t).total_overdue_amount
      = (invs.foldl (metricsStep c t) initState).total_overdue_amount := rfl
  rw [p]
  exact foldl_overdue_nonneg c t invs initState (by norm_num [initState])

theorem metrics_buckets_nonneg (c : Customer) (invs : List Invoice) (t : ℤ) :
    bucketsNonneg (calculate_client_metrics c invs t).overdue_buckets := by
  have p : (calculate_client_metrics c invs t).overdue_buckets
      = (invs.foldl (metricsStep c t) initState).overdue_buckets := rfl
  rw [p]
  exact foldl_buckets_nonneg c t invs initState (by norm_num [initState, bucketsNonneg])

theorem metrics_ratio_nonneg (c : Customer) (invs : List Invoice) (t : ℤ) :
    0 ≤ (calculate_client_metrics c invs t).on_time_payment_ratio := by
  have e : (calculate_client_metrics c invs t).on_time_payment_ratio
      = roundTo 4 (if ((invs.length : ℤ)
            - ((invs.foldl (metricsStep c t) initState).upcoming_invoice_count : ℤ)) > 0
          then (((invs.foldl (metricsStep c t) initState).paid_on_time_count
              + (invs.foldl (metricsStep c t) initState).partial_paid_on_time_count : ℕ) : ℚ)
            / ((((invs.length : ℤ)
              - ((invs.foldl (metricsStep c t) initState).upcoming_invoice_count : ℤ) : ℤ)) : ℚ)
          else 0) := rfl
  rw [e]
  apply roundTo_nonneg
  split_ifs with h
  · apply div_nonneg (Nat.cast_nonneg _)
    exact_mod_cast h.le
  · exact le_refl 0

theorem metrics_rdr_nonneg (c : Customer) (invs : List Invoice) (t : ℤ) :
    0 ≤ (calculate_client_metrics c invs t).recurring_delay_ratio := by
  have e : (calculate_client_metrics c invs t).recurring_delay_ratio
      = roundTo 4 (if ((invs.foldl (metricsStep c t) initState).paid_late_count
            + (invs.foldl (metricsStep c t) initState).partial_paid_late_count ≥ 3
          ∧ ((invs.length : ℤ)
            - ((invs.foldl (metricsStep c t) initState).upcoming_invoice_count : ℤ)) ≥ 5)
          then 1 else 0) := rfl
  rw [e]
  apply roundTo_nonneg
  split_ifs <;> norm_num

/-- Each score component of the form `1 - min(x, 1)` is nonnegative for
any `x`. -/
theorem one_sub_min_one_nonneg (x : ℚ) : 0 ≤ 1 - min x 1 := by
  have := min_le_right x 1
  linarith

/-- The weighted base score is nonnegative as soon as the on-time ratio
is: the other three components are nonnegative for any metrics. -/
theorem base_score_nonneg (m : Metrics) (h5 : 0 ≤ m.on_time_payment_ratio) :
    0 ≤ base_score m := by
  have a := one_sub_min_one_nonneg (m.total_overdue_amount / tiaDefault m)
  have b := one_sub_min_one_nonneg (severe_overdue_amount m / tiaDefault m)
  have c := one_sub_min_one_nonneg (behavioral_penalty m)
  unfold base_score overdue_score aging_score behavioral_score
  nlinarith

/-- `client_score` is in [0,1] for every metrics input: the neutral branch
returns 0.5 and the weighted branch clamps before rounding. -/
theorem client_score_bounds (m : Metrics) (invs : List Invoice) (t : ℤ) :
    0 ≤ (calculate_client_score m invs t).client_score ∧
    (calculate_client_score m invs t).client_score ≤ 1 := by
  simp only [calculate_client_score]
  by_cases hc : (if m.total_invoices = 0 then (1:ℤ) else (m.total_invoices : ℤ))
      - (m.upcoming_invoice_count : ℤ) ≤ 1
  · rw [if_pos hc]
    exact ⟨by norm_num [neutralScore], by norm_num [neutralScore]⟩
  · rw [if_neg hc]
    have e1 : (weightedScore m invs t).client_score
        = roundTo 4 (max 0 (min 1 (base_score m + trend_adjustment invs t
            + project_value_bonus m))) := rfl
    rw [e1]
    exact ⟨roundTo_nonneg _ _ (le_max_left 0 _),
      roundTo_le_one _ _ (max_le zero_le_one (min_le_left 1 _))⟩

/-- `sentiment_score` is nonnegative whenever the metrics' on-time ratio
and the attached sentiment input are. -/
theorem sentiment_score_nonneg (m : Metrics) (invs : List Invoice) (t : ℤ)
    (h5 : 0 ≤ m.on_time_payment_ratio) (h8 : 0 ≤ m.sentiment_score_from_comm) :
    0 ≤ (calculate_client_score m invs t).sentiment_score := by
  simp only [calculate_client_score]
  by_cases hc : (if m.total_invoices = 0 then (1:ℤ) else (m.total_invoices : ℤ))
      - (m.upcoming_invoice_count : ℤ) ≤ 1
  · rw [if_pos hc]
    norm_num [neutralScore]
  · rw [if_neg hc]
    have e2 : (weightedScore m invs t).sentiment_score
        = roundTo 4 (base_score m * (7/10) + m.sentiment_score_from_comm * (3/10)) := rfl
    rw [e2]
    apply roundTo_nonneg
    have hb := base_score_nonneg m h5
    nlinarith

/-- C1 amended: with the sentiment input in [0,1], `client_score` is
always in [0,1] and `sentiment_score` is always nonnegative; and if
moreover every invoice amount is nonnegative and the metrics'
`on_time_payment_ratio` is at most 1, then `sentiment_score` is also at
most 1. (Without the ratio bound `sentiment_score` can exceed 1, because
the sentiment blend is computed from the unclamped base score: see the
counterexample.) -/
theorem C1_amended (c : Customer) (invs : List Invoice) (t : ℤ) (sent : ℚ)
    (hs0 : 0 ≤ sent) (hs1 : sent ≤ 1) :
    0 ≤ (calculate_client_score { calculate_client_metrics c invs t with
        sentiment_score_from_comm := sent } invs t).client_score ∧
    (calculate_client_score { calculate_client_metrics c invs t with
        sentiment_score_from_comm := sent } invs t).client_score ≤ 1 ∧
    0 ≤ (calculate_client_score { calculate_client_metrics c invs t with
        sentiment_score_from_comm := sent } invs t).sentiment_score ∧
    ((∀ inv ∈ invs, 0 ≤ inv.invoice_amount) →
      (calculate_client_metrics c invs t).on_time_payment_ratio ≤ 1 →
      (calculate_client_score { calculate_client_metrics c invs t with
        sentiment_score_from_comm := sent } invs t).sentiment_score ≤ 1) := by
  obtain ⟨cb0, cb1⟩ := client_score_bounds { calculate_client_metrics c invs t with
      sentiment_score_from_comm := sent } invs t
  refine ⟨cb0, cb1, ?_, ?_⟩
  · exact sentiment_score_nonneg _ invs t (metrics_ratio_nonneg c invs t) hs0
  · intro hamt hratio
    obtain ⟨b1, b2, b3, b4, b5⟩ := metrics_buckets_nonneg c invs t
    exact (score_bounds { calculate_client_metrics c invs t with
        sentiment_score_from_comm := sent } invs t (metrics_tia_nonneg c invs t hamt)
      (metrics_tod_nonneg c invs t) b4 b5 (metrics_ratio_nonneg c invs t) hratio
      (metrics_rdr_nonneg c invs t) hs0 hs1).2.2.2

/-- C1 witness: the amended bounds at a concrete customer (one unpaid
overdue invoice, sentiment input 0.5 inside [0,1]), including the guarded
sentiment upper bound as an implication at that input. -/
theorem C1_witness :
    ((0:ℚ) ≤ 1/2 ∧ (1/2:ℚ) ≤ 1) ∧
    (0 ≤ (calculate_client_score { calculate_client_metrics exCustomer [invC3] 1000 with
        sentiment_score_from_comm := 1/2 } [invC3] 1000).client_score ∧
    (calculate_client_score { calculate_client_metrics exCustomer [invC3] 1000 with
        sentiment_score_from_comm := 1/2 } [invC3] 1000).client_score ≤ 1 ∧
    0 ≤ (calculate_client_score { calculate_client_metrics exCustomer [invC3] 1000 with
        sentiment_score_from_comm := 1/2 } [invC3] 1000).sentiment_score ∧
    ((∀ inv ∈ [invC3], 0 ≤ inv.invoice_amount) →
      (calculate_client_metrics exCustomer [invC3] 1000).on_time_payment_ratio ≤ 1 →
      (calculate_client_score { calculate_client_metrics exCustomer [invC3] 1000 with
        sentiment_score_from_comm := 1/2 } [invC3] 1000).sentiment_score ≤ 1)) :=
  ⟨⟨by norm_num, by norm_num⟩,
    C1_amended exCustomer [invC3] 1000 (1/2) (by norm_num) (by norm_num)⟩

/-- C1 counterexample: four invoices fully paid on time, two of which
also carry a future upcoming payment date, inflate
`on_time_payment_ratio` to 4/3; with sentiment input 1 (inside [0,1]) the
returned `sentiment_score` is 1.0583, outside [0,1]. -/
theorem C1_counterexample :
    ¬ ((calculate_client_score { calculate_client_metrics exCustomer invsC1 1000 with
        sentiment_score_from_comm := 1 } invsC1 1000).sentiment_score ≤ 1) := by
  norm_num [calculate_client_score, weightedScore, base_score, overdue_score, aging_score,
    severe_overdue_amount, behavioral_score, behavioral_penalty, project_value_bonus,
    tiaDefault, trend_adjustment, overduePairs, sortByDate, insertPair,
    calculate_client_metrics, metricsStep, updDetails, updUpcoming, updTiming,
    updOverdue, updLastInvoiceDate, updDisputed, updTotals, initState, Invoice.receivable,
    Invoice.overdueB, Invoice.days_overdue, Invoice.days_past_due, Invoice.payment_status,
    lookupAmountOverdue, OverdueBuckets.add, get_overdue_bucket, roundTo, rhe,
    percentile, medianQ, sortAsc, insertAsc, min_def, max_def,
    invsC1, paidInvoice, blankInvoice, exCustomer]
